import Mathlib

/-!
Shallow embedding of `rust-lib/flowy-sys/src/dispatch.rs` (AppFlowy event
dispatch engine) and proofs of the specified properties.

The collaborator modules (`module.rs`, `request.rs`, `response.rs`,
`error.rs`, `service.rs`, `util.rs`) are not part of the observed source;
their definitions below are modelled from the specification and marked as
such.  Everything else follows `dispatch.rs` line by line.

Effects are made explicit:
* the process-wide `EVENT_DISPATCH : RwLock<Option<EventDispatch>>` global
  becomes an explicit `GlobalState` value threaded through the entry points;
* a Rust panic (`unwrap` on `None` or on a poisoned lock) becomes the
  `PanicOr.panics` constructor;
* the nondeterministic outcome of awaiting the spawned tokio task
  (`join_handle.await`) becomes an explicit `JoinOutcome` parameter;
* the opaque boxed callback becomes a callback identifier, and the
  invocations performed by a dispatch are recorded as a trace of
  (callback identifier, response) pairs.
-/

namespace FlowySys

/-- Modelled from the spec: the event key is an opaque, hashable,
equality-comparable, human-displayable identifier (`module.rs` is not in the
observed source).  We use `String`. -/
abbrev Event : Type := String

/-- Modelled from the spec: the payload is raw bytes, a typed blob, or empty
(`request.rs` is not in the observed source). -/
inductive Payload where
  | none : Payload
  | bytes (data : List Nat) : Payload
deriving DecidableEq, Repr

/-- Modelled from the spec: a classified error (`error.rs` is not in the
observed source).  `internal` is the generic internal failure produced by
`InternalError`; `domain` carries handler-domain failure content. -/
inductive SystemError where
  | internal (msg : String) : SystemError
  | domain (code : String) (content : String) : SystemError
deriving DecidableEq, Repr

/-- Modelled from the spec: the unified Response — either a success payload
or an embedded classified error (`response.rs` is not in the observed
source). -/
inductive EventResponse where
  | ok (payload : Payload) : EventResponse
  | err (e : SystemError) : EventResponse
deriving DecidableEq, Repr

/-- Modelled from the spec: `InternalError::new(msg)` wraps a message as a
generic internal failure (`error.rs` is not in the observed source). -/
structure InternalError where
  msg : String
deriving DecidableEq, Repr

namespace InternalError

/-- Constructor `InternalError::new`. -/
def new (msg : String) : InternalError := ⟨msg⟩

/-- Modelled from the spec: conversion `InternalError -> SystemError`
(the `.into()` at the routing miss). -/
def into (i : InternalError) : SystemError := SystemError.internal i.msg

/-- Modelled from the spec: `InternalError::as_response` builds an error
Response embedding the internal error. -/
def as_response (i : InternalError) : EventResponse := EventResponse.err i.into

end InternalError

/-- Modelled from the spec: conversion `SystemError -> EventResponse`
(`e.into()` in the dispatch engine): the unified Response is constructible
from any classified Error, embedding it. -/
def SystemError.into_response (e : SystemError) : EventResponse :=
  EventResponse.err e

/-- Modelled from the spec: the normalized request passed to the handler —
id, event key and payload (`ModuleRequest` of `module.rs` is not in the
observed source). -/
structure ModuleRequest where
  event : Event
  id : String
  payload : Payload

namespace ModuleRequest

/-- Constructor `ModuleRequest::new(event, id, payload)`. -/
def new (event : Event) (id : String) (payload : Payload) : ModuleRequest :=
  ⟨event, id, payload⟩

/-- Modelled from the spec: the diagnostic rendering of a payload. -/
def payloadFmt (p : Payload) : String :=
  match p with
  | Payload.none => "None"
  | Payload.bytes d => toString d

/-- Modelled from the spec: the diagnostic (`Debug`) rendering of a
normalized request; it displays the id, the event key and the payload. -/
def debugFmt (r : ModuleRequest) : String :=
  "ModuleRequest id: " ++ r.id ++ ", event: " ++ r.event ++ ", payload: " ++
    payloadFmt r.payload

end ModuleRequest

/-- Identifier standing for one opaque boxed callback
(`BoxFutureCallback`). -/
abbrev CallbackId : Type := Nat

/-- Modelled from the spec: a module exposes a diagnostic name, the event
keys it claims, and asynchronously yields a per-request Handler; handler
construction may fail with a classified error, and a Handler maps one
normalized request to a success value or a classified error (`module.rs` and
`service.rs` are not in the observed source). -/
structure Module where
  name : String
  events : List Event
  new_service : Except SystemError (ModuleRequest → Except SystemError EventResponse)

/-- The registry: event key to module.  Built once, read only. -/
abbrev ModuleMap : Type := List (Event × Module)

/-- Modelled from the spec: `as_module_map(modules)` builds the registry
from the full module list, each module registered under each event key it
claims (last registration for a key wins, the recommended tie-break). -/
def as_module_map (modules : List Module) : ModuleMap :=
  modules.foldl (fun acc m => acc ++ m.events.map (fun e => (e, m))) []

/-- Modelled from the spec: registry lookup `module_map.get(&event)` —
returns the module registered for the key, if any (last wins). -/
def ModuleMap.get (mm : ModuleMap) (e : Event) : Option Module :=
  (mm.reverse.find? (fun p => p.1 = e)).map (fun p => p.2)

/-- `DispatchRequest` of `dispatch.rs`: id, event key, payload, optional
callback.  The callback is its identifier. -/
structure DispatchRequest where
  id : String
  event : Event
  payload : Payload
  callback : Option CallbackId

namespace DispatchRequest

/-- `DispatchRequest::new(event)`.  The id is generated internally by
`uuid::Uuid::new_v4()`; the generated value is passed explicitly here. -/
def new (event : Event) (generatedId : String) : DispatchRequest :=
  { payload := Payload.none
    event := event
    id := generatedId
    callback := Option.none }

/-- Fluent setter `DispatchRequest::payload`. -/
def set_payload (r : DispatchRequest) (payload : Payload) : DispatchRequest :=
  { r with payload := payload }

/-- Fluent setter `DispatchRequest::callback`. -/
def set_callback (r : DispatchRequest) (callback : CallbackId) : DispatchRequest :=
  { r with callback := Option.some callback }

/-- `DispatchRequest::into_parts`: destructures the request into the
normalized `ModuleRequest` and the detached optional callback. -/
def into_parts (r : DispatchRequest) : ModuleRequest × Option CallbackId :=
  (ModuleRequest.new r.event r.id r.payload, r.callback)

end DispatchRequest

/-- Trace of callback invocations performed by one dispatch: which callback
was invoked, and with which response value. -/
abbrev CallbackTrace : Type := List (CallbackId × EventResponse)

/-- The trace produced by `if let Some(callback) = callback { callback(response.clone()).await }`:
one invocation when a callback is present, none otherwise. -/
def invokeCallback (callback : Option CallbackId) (response : EventResponse) :
    CallbackTrace :=
  match callback with
  | Option.some cb => [(cb, response)]
  | Option.none => []

/-- The routing-miss diagnostic of `DispatchService::call`:
`format!("Can not find the module to handle the request:{:?}", request)`. -/
def missMsg (request : ModuleRequest) : String :=
  "Can not find the module to handle the request:" ++ request.debugFmt

/-- Tail of the async block of `DispatchService::call` from
`let response = result.unwrap_or_else(|e| e.into())` on: normalizes the
outcome into the unified Response, invokes the callback if present with a
copy of that Response awaiting it, and returns `Ok(response)`. -/
def finishDispatch (result : Except SystemError EventResponse)
    (callback : Option CallbackId) :
    Except SystemError EventResponse × CallbackTrace :=
  let response :=
    match result with
    | Except.ok r => r
    | Except.error e => e.into_response
  (Except.ok response, invokeCallback callback response)

/-- `DispatchService::call` (`dispatch.rs` lines 173–209): splits the
request, looks up the module, builds the handler (the `?` on
`fut.await?` short-circuits a construction failure out of the async block,
skipping the callback), invokes it, normalizes the outcome and fires the
callback.  The returned trace records the callback invocations the dispatch
performed. -/
def DispatchService.call (module_map : ModuleMap) (dispatch_request : DispatchRequest) :
    Except SystemError EventResponse × CallbackTrace :=
  let parts := dispatch_request.into_parts
  let request := parts.1
  let callback := parts.2
  match module_map.get request.event with
  | Option.some m =>
      match m.new_service with
      | Except.error e => (Except.error e, [])
      | Except.ok handler => finishDispatch (handler request) callback
  | Option.none =>
      finishDispatch (Except.error (InternalError.new (missMsg request)).into) callback

/-- `EventDispatch` (`dispatch.rs` lines 30–33): the registry plus the
execution pool.  The tokio runtime is opaque; it is represented by an
identifying token. -/
structure EventDispatch where
  module_map : ModuleMap
  runtime : Nat

/-- The process-wide `EVENT_DISPATCH : RwLock<Option<EventDispatch>>`,
made explicit.  `lockErr = some e` models the poisoned-lock state in which
`read()` fails with an error rendered as `e`; the contents are `none`
before `construct` has run. -/
structure GlobalState where
  lockErr : Option String
  dispatch : Option EventDispatch

/-- Result of running code that may panic (Rust `unwrap` on `None` or on a
poisoned write lock aborts the thread instead of producing a value). -/
inductive PanicOr (α : Type) where
  | panics (msg : String) : PanicOr α
  | ok (a : α) : PanicOr α
deriving Repr

/-- Outcome of awaiting the spawned task handle (`join_handle.await`):
either the task ran to completion and joined, or the unit of work was lost
and the join failed with an error rendered as the given string. -/
inductive JoinOutcome where
  | joined : JoinOutcome
  | lost (e : String) : JoinOutcome

/-- The panic message of `Option::unwrap` on `None`. -/
def unwrapNoneMsg : String := "called Option unwrap on a None value"

/-- The awaitable handle returned by `async_send` (`DispatchFuture`).  Its
resolution value is the Response; the callback trace records the
invocations performed by the background unit of work before the handle
resolved. -/
structure DispatchFuture where
  response : EventResponse
  trace : CallbackTrace

/-- Awaiting the `DispatchFuture` (its `Future::poll` loops once and is
immediately ready with the boxed future's output). -/
def DispatchFuture.await (f : DispatchFuture) : EventResponse := f.response

/-- The body of the spawned task (`dispatch.rs` lines 59–64):
`service.call(request).await.unwrap_or_else(|e| InternalError::new(format!("{:?}", e)).as_response())`.
The `Debug` rendering of the escaped `SystemError` is modelled by
`debugErr`. -/
def debugErr (e : SystemError) : String :=
  match e with
  | SystemError.internal m => "InternalError: " ++ m
  | SystemError.domain c m => "DomainError: " ++ c ++ ": " ++ m

/-- `EventDispatch::async_send` (`dispatch.rs` lines 52–84).  Reads the
global lock: a poisoned lock yields the `Dispatch runtime error` Response;
otherwise the contained `Option<EventDispatch>` is `unwrap`ped (panicking
when uninitialized), the task body runs on the pool and the handle
resolution is guarded by `unwrap_or_else` on the join outcome. -/
def async_send (g : GlobalState) (j : JoinOutcome) (request : DispatchRequest) :
    PanicOr DispatchFuture :=
  match g.lockErr with
  | Option.some e =>
      PanicOr.ok
        { response := (InternalError.new ("Dispatch runtime error: " ++ e)).as_response
          trace := [] }
  | Option.none =>
      match g.dispatch with
      | Option.none => PanicOr.panics unwrapNoneMsg
      | Option.some d =>
          let task := DispatchService.call d.module_map request
          let taskResponse :=
            match task.1 with
            | Except.ok r => r
            | Except.error e => (InternalError.new (debugErr e)).as_response
          match j with
          | JoinOutcome.joined =>
              PanicOr.ok { response := taskResponse, trace := task.2 }
          | JoinOutcome.lost e =>
              PanicOr.ok
                { response :=
                    (InternalError.new ("Dispatch join error: " ++ e)).as_response
                  trace := task.2 }

/-- `EventDispatch::sync_send` (`dispatch.rs` lines 86–88): blocks on the
asynchronous submission until resolution and returns the Response. -/
def sync_send (g : GlobalState) (j : JoinOutcome) (request : DispatchRequest) :
    PanicOr EventResponse :=
  match async_send g j request with
  | PanicOr.panics m => PanicOr.panics m
  | PanicOr.ok f => PanicOr.ok f.await

/-- `EventDispatch::construct` (`dispatch.rs` lines 36–50): runs the module
factory, builds the registry, creates a fresh runtime (its token is passed
explicitly) and overwrites the global slot with the new `EventDispatch`.
`write().unwrap()` panics on a poisoned lock. -/
def construct (g : GlobalState) (module_factory : Unit → List Module)
    (freshRuntime : Nat) : PanicOr GlobalState :=
  let modules := module_factory ()
  let module_map := as_module_map modules
  match g.lockErr with
  | Option.some _ => PanicOr.panics "PoisonError"
  | Option.none =>
      PanicOr.ok
        { lockErr := Option.none
          dispatch := Option.some { module_map := module_map, runtime := freshRuntime } }

/-! Concrete fixtures used by witnesses and counterexamples. -/

/-- A handler for the fixture module: succeeds with an empty payload. -/
def okHandler : ModuleRequest → Except SystemError EventResponse :=
  fun _ => Except.ok (EventResponse.ok Payload.none)

/-- Fixture module whose handler construction succeeds. -/
def okModule : Module :=
  { name := "doc", events := ["doc.open"], new_service := Except.ok okHandler }

/-- A handler for the fixture module: always reports a domain error. -/
def domainHandler : ModuleRequest → Except SystemError EventResponse :=
  fun _ => Except.error (SystemError.domain "E42" "unreachable")

/-- Fixture module whose handler always reports a domain error. -/
def domainErrModule : Module :=
  { name := "net", events := ["net.ping"], new_service := Except.ok domainHandler }

/-- Fixture module whose handler construction fails. -/
def badFactoryModule : Module :=
  { name := "bad"
    events := ["bad.ev"]
    new_service := Except.error (SystemError.internal "factory exploded") }

/-- Fixture registry holding the three fixture modules. -/
def fixtureMap : ModuleMap := as_module_map [okModule, domainErrModule, badFactoryModule]

/-- Fixture request with a callback, aimed at the failing-construction module. -/
def badFactoryReq : DispatchRequest :=
  (DispatchRequest.new "bad.ev" "id-3").set_callback 7

/-! Theorems for the specified claims. -/

/-- C7: splitting a `DispatchRequest` into parts yields the normalized
request carrying exactly the original event key, id and payload, paired
with the original optional callback — no field is altered or lost. -/
theorem into_parts_preserves_fields (r : DispatchRequest) :
    r.into_parts =
      ({ event := r.event, id := r.id, payload := r.payload }, r.callback) := rfl

/-- C8: the fluent payload setter changes only the payload field, and the
fluent callback setter changes only the callback field. -/
theorem fluent_setters_frame (r : DispatchRequest) (p : Payload) (cb : CallbackId) :
    (r.set_payload p).id = r.id ∧ (r.set_payload p).event = r.event ∧
    (r.set_payload p).callback = r.callback ∧ (r.set_payload p).payload = p ∧
    (r.set_callback cb).id = r.id ∧ (r.set_callback cb).event = r.event ∧
    (r.set_callback cb).payload = r.payload ∧
    (r.set_callback cb).callback = Option.some cb :=
  ⟨rfl, rfl, rfl, rfl, rfl, rfl, rfl, rfl⟩

/-- C9: a freshly constructed request has the empty payload and no
callback, and carries exactly the given event key and the generated id. -/
theorem new_request_defaults (e : Event) (generatedId : String) :
    (DispatchRequest.new e generatedId).payload = Payload.none ∧
    (DispatchRequest.new e generatedId).callback = Option.none ∧
    (DispatchRequest.new e generatedId).event = e ∧
    (DispatchRequest.new e generatedId).id = generatedId :=
  ⟨rfl, rfl, rfl, rfl⟩

/-- C4: the blocking submission path blocks on the asynchronous submission
path: whenever `async_send` returns a handle, `sync_send` on the identical
request content returns exactly the Response that handle resolves to. -/
theorem sync_send_blocks_on_async_send (g : GlobalState) (j : JoinOutcome)
    (r : DispatchRequest) (f : DispatchFuture)
    (h : async_send g j r = PanicOr.ok f) :
    sync_send g j r = PanicOr.ok f.response := by
  simp [sync_send, h, DispatchFuture.await]

/-- The resolved future of the C4 witness submission. -/
def witnessFuture : DispatchFuture :=
  { response := EventResponse.ok Payload.none, trace := [] }

/-- Witness for C4 at a concrete initialized state and request. -/
theorem sync_send_blocks_on_async_send_witness :
    sync_send { lockErr := Option.none, dispatch := Option.some ⟨fixtureMap, 0⟩ }
        JoinOutcome.joined (DispatchRequest.new "doc.open" "id-1") =
      PanicOr.ok witnessFuture.response :=
  sync_send_blocks_on_async_send
    { lockErr := Option.none, dispatch := Option.some ⟨fixtureMap, 0⟩ }
    JoinOutcome.joined (DispatchRequest.new "doc.open" "id-1") witnessFuture rfl

/-- C5: when the runtime is initialized and the background unit of work is
lost (the join fails with error `e`), the returned handle still resolves —
to an error Response whose message cites the join error. -/
theorem lost_join_resolves_execution_loss (mm : ModuleMap) (rt : Nat)
    (r : DispatchRequest) (e : String) :
    ∃ f : DispatchFuture,
      async_send { lockErr := Option.none, dispatch := Option.some ⟨mm, rt⟩ }
          (JoinOutcome.lost e) r = PanicOr.ok f ∧
      f.response =
        EventResponse.err (SystemError.internal ("Dispatch join error: " ++ e)) :=
  ⟨{ response := EventResponse.err (SystemError.internal ("Dispatch join error: " ++ e))
     trace := (DispatchService.call mm r).2 },
   rfl, rfl⟩

/-- C1: contrary to the specified graceful degradation, a submission made
while the global slot is still uninitialized (lock healthy, contents
`None`) panics — `dispatch.as_ref().unwrap()` aborts instead of producing
the promised runtime-not-initialized error Response.  Both entry points
fault on a concrete request. -/
theorem uninitialized_submission_panics :
    async_send { lockErr := Option.none, dispatch := Option.none } JoinOutcome.joined
        (DispatchRequest.new "doc.open" "id-0") = PanicOr.panics unwrapNoneMsg ∧
    sync_send { lockErr := Option.none, dispatch := Option.none } JoinOutcome.joined
        (DispatchRequest.new "doc.open" "id-0") = PanicOr.panics unwrapNoneMsg :=
  ⟨rfl, rfl⟩

/-- C2: a request whose event key has no registered module yields a normal
`Ok` result carrying an error Response whose embedded message contains the
unmatched event key — the miss is surfaced as a Response, not a fault. -/
theorem unregistered_event_routing_failure (mm : ModuleMap) (r : DispatchRequest)
    (h : ModuleMap.get mm r.event = Option.none) :
    ∃ msg : String,
      (DispatchService.call mm r).1 =
        Except.ok (EventResponse.err (SystemError.internal msg)) ∧
      ∃ pre post : String, msg = pre ++ (r.event ++ post) := by
  refine ⟨missMsg r.into_parts.1, ?_, ?_⟩
  · simp only [DispatchService.call, DispatchRequest.into_parts, ModuleRequest.new] at h ⊢
    simp [h, finishDispatch, InternalError.into, InternalError.new,
      SystemError.into_response]
  · refine ⟨"Can not find the module to handle the request:" ++
        ("ModuleRequest id: " ++ r.id ++ ", event: "),
      ", payload: " ++ ModuleRequest.payloadFmt r.payload, ?_⟩
    simp [missMsg, ModuleRequest.debugFmt, DispatchRequest.into_parts,
      ModuleRequest.new, String.append_assoc]

/-- Witness for C2: dispatching against the empty registry. -/
theorem unregistered_event_routing_failure_witness :
    ∃ msg : String,
      (DispatchService.call [] (DispatchRequest.new "undefined.ev" "id-9")).1 =
        Except.ok (EventResponse.err (SystemError.internal msg)) ∧
      ∃ pre post : String, msg = pre ++ ("undefined.ev" ++ post) :=
  unregistered_event_routing_failure [] (DispatchRequest.new "undefined.ev" "id-9") rfl

/-- C6: once a module is matched and its handler constructed, the dispatch
is total — it returns `Ok` of a Response — and a handler-reported failure
is embedded as that exact error in the unified Response's error slot. -/
theorem handler_error_embedded_total (mm : ModuleMap) (r : DispatchRequest)
    (m : Module) (handler : ModuleRequest → Except SystemError EventResponse)
    (hget : ModuleMap.get mm r.event = Option.some m)
    (hs : m.new_service = Except.ok handler) :
    (∃ resp : EventResponse, (DispatchService.call mm r).1 = Except.ok resp) ∧
    ∀ e : SystemError, handler r.into_parts.1 = Except.error e →
      (DispatchService.call mm r).1 = Except.ok (EventResponse.err e) := by
  constructor
  · simp only [DispatchService.call, DispatchRequest.into_parts, ModuleRequest.new]
      at hget ⊢
    simp [hget, hs, finishDispatch]
  · intro e he
    simp only [DispatchService.call, DispatchRequest.into_parts, ModuleRequest.new]
      at hget he ⊢
    simp [hget, hs, he, finishDispatch, SystemError.into_response]

/-- Witness for C6: the fixture module whose handler reports a domain
error; the error content round-trips into the Response unchanged. -/
theorem handler_error_embedded_total_witness :
    (DispatchService.call fixtureMap (DispatchRequest.new "net.ping" "id-2")).1 =
      Except.ok (EventResponse.err (SystemError.domain "E42" "unreachable")) :=
  (handler_error_embedded_total fixtureMap (DispatchRequest.new "net.ping" "id-2")
      domainErrModule domainHandler rfl rfl).2
    (SystemError.domain "E42" "unreachable") rfl

/-- C10: a second `construct` replaces the whole global dispatch state —
the resulting registry and pool come from the second factory alone,
regardless of what the first call installed. -/
theorem construct_last_wins (g : GlobalState) (hg : g.lockErr = Option.none)
    (f1 f2 : Unit → List Module) (rt1 rt2 : Nat) (g1 : GlobalState)
    (h1 : construct g f1 rt1 = PanicOr.ok g1) :
    construct g1 f2 rt2 =
      PanicOr.ok
        { lockErr := Option.none
          dispatch :=
            Option.some { module_map := as_module_map (f2 ()), runtime := rt2 } } := by
  simp only [construct, hg] at h1
  cases h1
  simp [construct]

/-- Witness for C10: constructing with a one-module factory and then with
a different factory leaves only the second registry. -/
theorem construct_last_wins_witness :
    construct
        { lockErr := Option.none
          dispatch :=
            Option.some { module_map := as_module_map [okModule], runtime := 1 } }
        (fun _ => [domainErrModule]) 2 =
      PanicOr.ok
        { lockErr := Option.none
          dispatch :=
            Option.some
              { module_map := as_module_map [domainErrModule], runtime := 2 } } :=
  construct_last_wins { lockErr := Option.none, dispatch := Option.none } rfl
    (fun _ => [okModule]) (fun _ => [domainErrModule]) 1 2
    { lockErr := Option.none
      dispatch := Option.some { module_map := as_module_map [okModule], runtime := 1 } }
    rfl

/-- C3 counterexample: a dispatched request carrying a callback for which
the callback is never invoked.  The fixture module's handler construction
fails, the `?` short-circuits out of the async block before the callback
block runs, the caller still receives a Response — and the invocation
trace is empty. -/
theorem callback_skipped_on_construction_failure :
    badFactoryReq.callback = Option.some 7 ∧
    (DispatchService.call fixtureMap badFactoryReq).2 = [] ∧
    async_send { lockErr := Option.none, dispatch := Option.some ⟨fixtureMap, 0⟩ }
        JoinOutcome.joined badFactoryReq =
      PanicOr.ok
        { response :=
            EventResponse.err (SystemError.internal "InternalError: factory exploded")
          trace := [] } :=
  ⟨rfl, rfl, rfl⟩

/-- C3 as amended: either the dispatch completes with `Ok resp`, in which
case the callback trace is exactly one invocation of the supplied callback
with that very Response (and empty when no callback was supplied), or
handler construction failed for the matched module, in which case no
callback is invoked at all. -/
theorem callback_invoked_once_unless_construction_fails
    (mm : ModuleMap) (r : DispatchRequest) :
    (∃ resp : EventResponse,
        DispatchService.call mm r = (Except.ok resp, invokeCallback r.callback resp)) ∨
    (∃ e : SystemError, ∃ m : Module,
        ModuleMap.get mm r.event = Option.some m ∧
        m.new_service = Except.error e ∧
        DispatchService.call mm r = (Except.error e, [])) := by
  simp only [DispatchService.call, DispatchRequest.into_parts, ModuleRequest.new]
  cases hget : ModuleMap.get mm r.event with
  | none =>
      simp [hget, finishDispatch]
  | some m =>
      cases hs : m.new_service with
      | error e =>
          right
          exact ⟨e, m, rfl, hs, by simp [hget, hs]⟩
      | ok handler =>
          left
          simp [hget, hs, finishDispatch]

end FlowySys
